import Mathlib

/-!
Verification development for the cloudcubes scheduler, a shallow embedding of
src/scheduler/app.py.  Times of day are minutes since midnight (0 .. 1439);
Python time objects compare lexicographically on (hour, minute), which is
order-isomorphic to this minute count.  Exceptions raised by the handler are
modelled with Except; the Python None returned by the stubbed state check is
modelled with Option.
-/

namespace Cloudcubes

/-- Last-known server state held in the Server_State attribute of a record
(the table scan projects Id, Schedule and Server_State). -/
inductive ObservedState where
  | online
  | offline
  | unknown
  deriving DecidableEq, Repr

/-- The Schedule attribute of a record: the raw Start-Time and Stop-Time
strings, as read by update_server. -/
structure Sched where
  start_time : String
  stop_time : String
  deriving DecidableEq, Repr

/-- One server record as consumed by update_server. -/
structure Server where
  id : String
  schedule : Option Sched
  server_state : ObservedState
  deriving DecidableEq, Repr

/-- The action a pass takes for one record: a call to start_server, a call to
stop_server, or neither. -/
inductive Action where
  | start
  | stop
  | noop
  deriving DecidableEq, Repr

/-- Errors that propagate out of the per-record processing; strptime raises
ValueError on a string that does not match the %H:%M format. -/
inductive PassErr where
  | value_error (s : String)
  deriving DecidableEq, Repr

/-- A one- or two-digit decimal group, as matched by the strptime directives
%H and %M. -/
def one_digit (a : Char) : Option Nat :=
  if a.isDigit then some (a.toNat - 48) else none

/-- Two decimal digits. -/
def two_digit (a b : Char) : Option Nat :=
  if a.isDigit && b.isDigit then some ((a.toNat - 48) * 10 + (b.toNat - 48)) else none

/-- Bounds check performed by strptime: %H admits 0..23, %M admits 0..59.
Successful parses are normalised to the minute of the day. -/
def mk_time (h m : Nat) : Option Nat :=
  if h < 24 && m < 60 then some (h * 60 + m) else none

/-- datetime.strptime(s, "%H:%M").time(): one or two digits, a colon, one or
two digits, nothing else; hour below 24 and minute below 60.  none models the
ValueError raised on any other string. -/
def parse_hhmm (s : String) : Option Nat :=
  match s.toList with
  | [a, ':', c] => do mk_time (← one_digit a) (← one_digit c)
  | [a, ':', c, d] => do mk_time (← one_digit a) (← two_digit c d)
  | [a, b, ':', c] => do mk_time (← two_digit a b) (← one_digit c)
  | [a, b, ':', c, d] => do mk_time (← two_digit a b) (← two_digit c d)
  | _ => none

/-- The schedule evaluation of update_server (lines 62 .. 72), with the
current time taken as a time of day so that the comparisons are the
time-against-time ones the code intends.  stop_after_start is stop_time >
start_time; the non-wrapping branch is current > start and current < stop,
the wrapping branch is current > start or current < stop — all inequalities
strict, exactly as in the source. -/
def should_be_online (current_time start_time stop_time : Nat) : Bool :=
  let stop_after_start : Bool := decide (start_time < stop_time)
  if stop_after_start then
    decide (start_time < current_time) && decide (current_time < stop_time)
  else
    decide (start_time < current_time) || decide (current_time < stop_time)

/-- is_server_online (lines 90 .. 92): its body is the bare expression False
with no return statement, so the Python function returns None on every
input. -/
def is_server_online (_server : Server) : Option Bool := none

/-- Python truthiness of the value produced by is_server_online: None is
falsy. -/
def py_truthy : Option Bool → Bool
  | none => false
  | some b => b

/-- The dispatch branch of update_server (lines 75 .. 80), factored over its
two boolean inputs: start_server when should_be_online and not server_online,
stop_server when server_online and not should_be_online, otherwise nothing. -/
def reconcile (should_be : Bool) (server_online : Bool) : Action :=
  if should_be && !server_online then Action.start
  else if server_online && !should_be then Action.stop
  else Action.noop

/-- Modelled from the spec: the code never consults the stored Server_State
(is_server_online is a TODO stub), so the mapping from the observed-state
enumeration of the spec (section 3) onto the boolean consumed at lines 75 ..
80 follows the spec: Online counts as online, Offline and Unknown do not. -/
def observed_online : ObservedState → Bool
  | ObservedState.online => true
  | _ => false

/-- update_server (lines 49 .. 80): return immediately when no Schedule is
present; otherwise parse Start-Time and Stop-Time (ValueError propagates),
evaluate the schedule against the module-level current time, and take the
dispatch branch with the value returned by is_server_online. -/
def update_server (current_time : Nat) (server : Server) : Except PassErr Action :=
  match server.schedule with
  | none => Except.ok Action.noop
  | some sched =>
    match parse_hhmm sched.start_time with
    | none => Except.error (PassErr.value_error sched.start_time)
    | some start_time =>
      match parse_hhmm sched.stop_time with
      | none => Except.error (PassErr.value_error sched.stop_time)
      | some stop_time =>
        let desired := should_be_online current_time start_time stop_time
        let server_online := py_truthy (is_server_online server)
        Except.ok (reconcile desired server_online)

/-- The per-record loop of lambda_handler (lines 30 .. 33): update_server on
each record in order, with no try/except, so the first exception aborts the
whole pass. -/
def run_pass (current_time : Nat) (servers : List Server) : Except PassErr (List Action) :=
  servers.mapM (update_server current_time)

/-- The HTTP-style response lambda_handler builds (lines 35 .. 40): status
code 200 and the JSON serialisation of a fixed hello-world message. -/
structure Response where
  statusCode : Nat
  body : String
  deriving DecidableEq, Repr

/-- json.dumps of the literal dictionary at line 38. -/
def hello_response : Response :=
  { statusCode := 200, body := "\x7b\"message\": \"hello world\"\x7d" }

/-- lambda_handler (lines 8 .. 40): run the pass over every fetched record and
return the constant response; an exception raised mid-loop propagates out. -/
def lambda_handler (current_time : Nat) (servers : List Server) : Except PassErr Response :=
  match run_pass current_time servers with
  | Except.error e => Except.error e
  | Except.ok _ => Except.ok hello_response

/-- current_time is assigned once at module import (line 6) and update_server
reads that global on every later call, so an invocation consults the import
time, never its own wall-clock time. -/
def handler_invocation (import_time _invocation_time : Nat) (servers : List Server) :
    Except PassErr (List Action) :=
  run_pass import_time servers

/-- A Python time value as it participates in the comparisons of
update_server: either a datetime (line 6 builds one from the clock, carrying
a date) or a bare time of day (what strptime(...).time() yields). -/
inductive PyTimeVal where
  | dt (day : Nat) (minute : Nat)
  | tod (minute : Nat)
  deriving DecidableEq, Repr

/-- Python ordering a > b on these values: defined between two datetimes and
between two times, and a TypeError between a datetime and a time. -/
def py_gt : PyTimeVal → PyTimeVal → Except Unit Bool
  | PyTimeVal.dt d1 m1, PyTimeVal.dt d2 m2 =>
    Except.ok (decide (d2 < d1 ∨ (d1 = d2 ∧ m2 < m1)))
  | PyTimeVal.tod m1, PyTimeVal.tod m2 => Except.ok (decide (m2 < m1))
  | _, _ => Except.error ()

/-- Python ordering a < b, same domain as py_gt. -/
def py_lt : PyTimeVal → PyTimeVal → Except Unit Bool
  | PyTimeVal.dt d1 m1, PyTimeVal.dt d2 m2 =>
    Except.ok (decide (d1 < d2 ∨ (d1 = d2 ∧ m1 < m2)))
  | PyTimeVal.tod m1, PyTimeVal.tod m2 => Except.ok (decide (m1 < m2))
  | _, _ => Except.error ()

/-- Lines 62 .. 72 evaluated over typed Python values with the short-circuit
of and/or: stop_after_start compares the two parsed times, then the selected
branch compares current_time against them. -/
def eval_should_be_online (cur st sp : PyTimeVal) : Except Unit Bool :=
  match py_gt sp st with
  | Except.error e => Except.error e
  | Except.ok stop_after_start =>
    if stop_after_start then
      match py_gt cur st with
      | Except.error e => Except.error e
      | Except.ok a => if a then py_lt cur sp else Except.ok false
    else
      match py_gt cur st with
      | Except.error e => Except.error e
      | Except.ok a => if a then Except.ok true else py_lt cur sp

/-- A record whose Start-Time string does not parse as %H:%M. -/
def bad_server : Server :=
  { id := "bad", schedule := some { start_time := "nonsense", stop_time := "17:00" },
    server_state := ObservedState.offline }

/-- A well-formed record scheduled 09:00 .. 17:00, stored as Offline. -/
def good_server : Server :=
  { id := "good", schedule := some { start_time := "09:00", stop_time := "17:00" },
    server_state := ObservedState.offline }

/-- A well-formed record scheduled 09:00 .. 17:00 whose stored state is
Online. -/
def online_server : Server :=
  { id := "srv", schedule := some { start_time := "09:00", stop_time := "17:00" },
    server_state := ObservedState.online }

/-- A record with no Schedule attribute. -/
def unscheduled_server : Server :=
  { id := "u1", schedule := none, server_state := ObservedState.unknown }

/-- C1: with start = 09:00 (540) and stop = 17:00 (1020) the claim requires
desired_online true at 09:00, true at 16:59, false at 17:00 and false at
08:59.  The source uses strict inequalities, so at the start boundary
now = start it yields false, contradicting the claimed inclusive-start
semantics; the other three example points agree with the claim. -/
theorem C1_strict_start_boundary :
    should_be_online 540 540 1020 = false ∧
    should_be_online 1019 540 1020 = true ∧
    should_be_online 1020 540 1020 = false ∧
    should_be_online 539 540 1020 = false := by
  decide

/-- C2: the dispatch branch of update_server, taking the observed state as
input, emits exactly the claimed table: Start exactly when desired holds and
the observed state is not Online, Stop exactly when desired fails and the
observed state is Online, and NoOp in every other combination. -/
theorem C2_reconcile_matches_table :
    ∀ (desired : Bool) (obs : ObservedState),
      (reconcile desired (observed_online obs) = Action.start ↔
        desired = true ∧ obs ≠ ObservedState.online) ∧
      (reconcile desired (observed_online obs) = Action.stop ↔
        desired = false ∧ obs = ObservedState.online) ∧
      (reconcile desired (observed_online obs) = Action.noop ↔
        (desired = true ∧ obs = ObservedState.online) ∨
        (desired = false ∧ obs ≠ ObservedState.online)) := by
  intro desired obs
  cases desired <;> cases obs <;> decide

/-- C3: evaluating the schedule exactly as the source writes it compares the
module-level current_time, a datetime, against the parsed time objects; that
comparison is a TypeError for every current datetime and every pair of parsed
times, so the evaluation never returns a boolean. -/
theorem C3_typed_comparison_error (d m s e : Nat) :
    eval_should_be_online (PyTimeVal.dt d m) (PyTimeVal.tod s) (PyTimeVal.tod e) =
      Except.error () := by
  by_cases h : s < e <;>
    simp [eval_should_be_online, py_gt, py_lt, h]

/-- C3 witness: the evaluation at current time 10:00 of day 0 with the window
09:00 .. 17:00 raises. -/
theorem C3_typed_comparison_error_witness :
    eval_should_be_online (PyTimeVal.dt 0 600) (PyTimeVal.tod 540) (PyTimeVal.tod 1020) =
      Except.error () :=
  C3_typed_comparison_error 0 600 540 1020

/-- C4: a degenerate window with start = stop = 09:00 (540) takes the
wrapping branch (now > s or now < s), which is false exactly at t = s, so
the code is offline at that minute and online at every other, contradicting
the claimed always-online treatment. -/
theorem C4_degenerate_window_boundary :
    should_be_online 540 540 540 = false ∧
    should_be_online 541 540 540 = true ∧
    should_be_online 0 540 540 = true := by
  decide

/-- C5: a pass over a malformed record followed by a well-formed one aborts
with the ValueError of the first record: the second record is never
evaluated and no per-record Failed outcome exists, although that second
record alone would have produced a Start. -/
theorem C5_pass_aborts_on_malformed :
    run_pass 720 [bad_server, good_server] =
      Except.error (PassErr.value_error "nonsense") ∧
    run_pass 720 [good_server] = Except.ok [Action.start] := by
  constructor <;> rfl

/-- C6: the dispatch table alone would give NoOp for desired with observed
online, but is_server_online returns None regardless of the stored state, so
a record recorded Online with the window active still produces Start on the
(repeated) pass — a duplicate Start dispatch. -/
theorem C6_duplicate_start_despite_online_state :
    reconcile true true = Action.noop ∧
    py_truthy (is_server_online online_server) = false ∧
    update_server 720 online_server = Except.ok Action.start := by
  refine ⟨rfl, rfl, rfl⟩

/-- C7: an invocation at 18:00 (1080) in a process whose module was imported
at 12:00 (720) evaluates the window 09:00 .. 17:00 against the cached import
time and dispatches Start, although an evaluation at the invocation time
itself would find the window closed. -/
theorem C7_cached_import_time :
    handler_invocation 720 1080 [good_server] = Except.ok [Action.start] ∧
    handler_invocation 720 1080 [good_server] = handler_invocation 720 720 [good_server] ∧
    should_be_online 1080 540 1020 = false := by
  refine ⟨rfl, rfl, rfl⟩

/-- C8: a record with no Schedule attribute makes update_server return at
once: for every current time the result is NoOp, the evaluator and the
dispatch calls are never reached. -/
theorem C8_no_schedule_noop (t : Nat) (s : Server) (h : s.schedule = none) :
    update_server t s = Except.ok Action.noop := by
  unfold update_server
  rw [h]

/-- C8 witness: the unscheduled record at time 0. -/
theorem C8_no_schedule_noop_witness :
    update_server 0 unscheduled_server = Except.ok Action.noop :=
  C8_no_schedule_noop 0 unscheduled_server rfl

/-- C9: the handler returns the constant 200 / hello-world response whatever
the outcomes of the pass were — here an empty pass and a pass that dispatched
one Start yield the same response, which carries no Started, Stopped, NoOp or
Failed counts and no failure reasons. -/
theorem C9_constant_response_no_summary :
    lambda_handler 720 [] = Except.ok hello_response ∧
    lambda_handler 720 [good_server] = Except.ok hello_response ∧
    run_pass 720 [] = Except.ok [] ∧
    run_pass 720 [good_server] = Except.ok [Action.start] ∧
    hello_response.body = "\x7b\"message\": \"hello world\"\x7d" := by
  refine ⟨rfl, rfl, rfl, rfl, rfl⟩

/-- With the observed-online input false, the dispatch branch never selects
stop_server, whatever the desired value. -/
lemma reconcile_not_stop (d : Bool) : reconcile d false ≠ Action.stop := by
  cases d <;> decide

/-- C10: is_server_online returns None on every input, so the server is
always treated as not online and no pass ever produces a Stop action. -/
theorem C10_stop_never_dispatched (t : Nat) (s : Server) :
    is_server_online s = none ∧ update_server t s ≠ Except.ok Action.stop := by
  refine ⟨rfl, ?_⟩
  unfold update_server
  split
  · simp
  · split
    · simp
    · split
      · simp
      · simp only [is_server_online, py_truthy]
        intro h
        exact reconcile_not_stop _ (Except.ok.inj h)

end Cloudcubes
